import Mathlib

/-!
Shallow embedding of `diesel/src/expression/array_comparison.rs`.

The rendering pass (diesel's `AstPass`) is modelled as an explicit state
holding the SQL text emitted so far, the ordered list of bound parameters,
and the prepared-statement cacheability flag (initially safe; walking a
fragment may mark it unsafe, which is diesel's `unsafe_to_cache_prepared`).
A query fragment (`QueryFragment::walk_ast`) becomes a state transformer
returning `Except ε` to model `QueryResult<()>`.  `π` is the type of bound
parameter values, `ε` the backend error type.
-/

namespace Diesel

/-- The rendering output state: SQL text, ordered bound parameters, and the
prepared-statement-cache safety flag (true until a fragment marks itself
unsafe to cache). -/
structure AstPass (π : Type) where
  sql : String
  binds : List π
  safeToCache : Bool
deriving Repr, DecidableEq

/-- A fresh output buffer: empty SQL, no parameters, safe to cache. -/
def AstPass.fresh {π : Type} : AstPass π :=
  { sql := "", binds := [], safeToCache := true }

/-- Models `AstPass::push_sql`: append literal SQL text. -/
def AstPass.push_sql {π : Type} (out : AstPass π) (s : String) : AstPass π :=
  { out with sql := out.sql ++ s }

/-- Models `AstPass::unsafe_to_cache_prepared`: mark the statement as not
safe to cache as a prepared-statement shape. -/
def AstPass.mark_uncacheable {π : Type} (out : AstPass π) : AstPass π :=
  { out with safeToCache := false }

/-- A query fragment's rendering behaviour: diesel's
`QueryFragment::walk_ast(&self, out: AstPass) -> QueryResult<()>`. -/
abbrev Frag (π ε : Type) := AstPass π → Except ε (AstPass π)

/-- Models the `QueryFragment<DB>` trait. -/
class QueryFragment (π ε : Type) (α : Type) where
  walk_ast : α → Frag π ε

/-- Any raw rendering function is itself a fragment (used to quantify over
arbitrary left-hand expressions). -/
instance {π ε : Type} : QueryFragment π ε (Frag π ε) :=
  ⟨fun f => f⟩

/-- Models the `MaybeEmpty` trait (source lines 122-124). -/
class MaybeEmpty (α : Type) where
  is_empty : α → Bool

/-- A left expression that renders as fixed SQL text and nothing else
(e.g. a column reference such as `age`). -/
def textFrag {π ε : Type} (t : String) : Frag π ε :=
  fun out => Except.ok (out.push_sql t)

/-- A fragment that always fails with a fixed backend error. -/
def failFrag {π ε : Type} (e : ε) : Frag π ε :=
  fun _ => Except.error e

/-- Source: `pub struct In<T, U> { left: T, values: U }`. -/
structure In (τ υ : Type) where
  left : τ
  values : υ

/-- Source: `In::new`. -/
def In.new {τ υ : Type} (left : τ) (values : υ) : In τ υ :=
  { left := left, values := values }

/-- Source: `pub struct NotIn<T, U> { left: T, values: U }`. -/
structure NotIn (τ υ : Type) where
  left : τ
  values : υ

/-- Source: `NotIn::new`. -/
def NotIn.new {τ υ : Type} (left : τ) (values : υ) : NotIn τ υ :=
  { left := left, values := values }

/-- Source lines 61-71, `impl QueryFragment for In`: if the right-hand side
is empty push `1=0`, otherwise render left, ` IN (`, the values, `)`.
The `?` operator is modelled by matching on the child's `Except` result. -/
def In.walk_ast {π ε τ υ : Type} [QueryFragment π ε τ] [QueryFragment π ε υ]
    [MaybeEmpty υ] (x : In τ υ) : Frag π ε :=
  fun out =>
    if MaybeEmpty.is_empty x.values then
      Except.ok (out.push_sql "1=0")
    else
      match QueryFragment.walk_ast (π := π) (ε := ε) x.left out with
      | Except.error e => Except.error e
      | Except.ok o1 =>
        match QueryFragment.walk_ast (π := π) (ε := ε) x.values
            (o1.push_sql " IN (") with
        | Except.error e => Except.error e
        | Except.ok o2 => Except.ok (o2.push_sql ")")

/-- Source lines 80-90, `impl QueryFragment for NotIn`: if the right-hand
side is empty push `1=1`, otherwise render left, ` NOT IN (`, the values,
`)`. -/
def NotIn.walk_ast {π ε τ υ : Type} [QueryFragment π ε τ] [QueryFragment π ε υ]
    [MaybeEmpty υ] (x : NotIn τ υ) : Frag π ε :=
  fun out =>
    if MaybeEmpty.is_empty x.values then
      Except.ok (out.push_sql "1=1")
    else
      match QueryFragment.walk_ast (π := π) (ε := ε) x.left out with
      | Except.error e => Except.error e
      | Except.ok o1 =>
        match QueryFragment.walk_ast (π := π) (ε := ε) x.values
            (o1.push_sql " NOT IN (") with
        | Except.error e => Except.error e
        | Except.ok o2 => Except.ok (o2.push_sql ")")

/-- Source line 153: `pub struct Many<T>(Vec<T>);`. -/
structure Many (τ : Type) where
  vals : List τ

/-- Source lines 159-163: `Many::is_empty` is the length check of the
stored vector. -/
def Many.is_empty {τ : Type} (m : Many τ) : Bool :=
  m.vals.isEmpty

instance {τ : Type} : MaybeEmpty (Many τ) :=
  ⟨Many.is_empty⟩

/-- The loop body of `Many::walk_ast` (source lines 186-194): walk each
value in order, preceded by `", "` except for the first. -/
def Many.walkValues {π ε τ : Type} [QueryFragment π ε τ] :
    List τ → Bool → Frag π ε
  | [], _ => fun out => Except.ok out
  | v :: rest, first => fun out =>
    let out := if first then out else out.push_sql ", "
    match QueryFragment.walk_ast (π := π) (ε := ε) v out with
    | Except.error e => Except.error e
    | Except.ok out => Many.walkValues rest false out

/-- Source lines 184-196, `impl QueryFragment for Many`: first mark the
statement unsafe to cache, then emit the members joined by `", "`. -/
def Many.walk_ast {π ε τ : Type} [QueryFragment π ε τ] (m : Many τ) :
    Frag π ε :=
  fun out => Many.walkValues m.vals true out.mark_uncacheable

instance {π ε τ : Type} [QueryFragment π ε τ] : QueryFragment π ε (Many τ) :=
  ⟨Many.walk_ast⟩

/-- Source lines 105-120, `AsInExpression for I: IntoIterator`: convert
every item independently with `as_expression` (abstracted as `conv`) and
collect, preserving order and duplicates. -/
def as_in_expression {α τ : Type} (conv : α → τ) (xs : List α) : Many τ :=
  { vals := xs.map conv }

/-- Modelled from the spec: the expression produced by diesel's
`AsExpression::as_expression` for one host value (diesel's `Bound`, whose
source is not part of this subsystem's file) carries the value and, when
walked, appends the value's SQL text and records the value as exactly one
bound parameter, in order. -/
structure Bound (π : Type) where
  sqlText : String
  value : π

/-- Modelled from the spec: walking a bound value appends its SQL text and
pushes one bound parameter; it never fails and never touches the
cacheability flag. -/
def Bound.walk_ast {π ε : Type} (b : Bound π) : Frag π ε :=
  fun out =>
    Except.ok { out with sql := out.sql ++ b.sqlText,
                         binds := out.binds ++ [b.value] }

instance {π ε : Type} : QueryFragment π ε (Bound π) :=
  ⟨Bound.walk_ast⟩

/-- Modelled from the spec: the per-item conversion `as_expression`, given
a way `toSql` to print a value, yields the bound-value expression. -/
def as_expression {π : Type} (toSql : π → String) (v : π) : Bound π :=
  { sqlText := toSql v, value := v }

/-- Models `expression::subselect::Subselect` (referenced by source lines
126-150; its own definition lives outside this file): a nested select query
used as the right-hand side. -/
structure Subselect (σ : Type) where
  query : σ

/-- Models `Subselect::new`. -/
def Subselect.new {σ : Type} (q : σ) : Subselect σ :=
  { query := q }

/-- Modelled from the spec: a subquery adapter's emptiness capability
answers unconditionally "not empty" (the `impl MaybeEmpty for Subselect`
lives outside this file). -/
def Subselect.is_empty {σ : Type} (_ : Subselect σ) : Bool :=
  false

instance {σ : Type} : MaybeEmpty (Subselect σ) :=
  ⟨Subselect.is_empty⟩

/-- Modelled from the spec: walking a subquery adapter renders the wrapped
query unchanged and defers entirely to its behaviour. -/
def Subselect.walk_ast {π ε σ : Type} [QueryFragment π ε σ]
    (s : Subselect σ) : Frag π ε :=
  QueryFragment.walk_ast s.query

instance {π ε σ : Type} [QueryFragment π ε σ] :
    QueryFragment π ε (Subselect σ) :=
  ⟨Subselect.walk_ast⟩

/-- Modelled from the spec: a statically typed select query, abstracted to
its rendering behaviour (its own definition lives outside this file). -/
structure SelectStatement (π ε : Type) where
  frag : Frag π ε

instance {π ε : Type} : QueryFragment π ε (SelectStatement π ε) :=
  ⟨fun s => s.frag⟩

/-- Source lines 126-138, `AsInExpression for SelectStatement`: wrap the
query unchanged in a `Subselect`. -/
def SelectStatement.as_in_expression {π ε : Type} (s : SelectStatement π ε) :
    Subselect (SelectStatement π ε) :=
  Subselect.new s

/-- Modelled from the spec: a boxed (dynamically typed) select query,
abstracted to its rendering behaviour. -/
structure BoxedSelectStatement (π ε : Type) where
  frag : Frag π ε

instance {π ε : Type} : QueryFragment π ε (BoxedSelectStatement π ε) :=
  ⟨fun s => s.frag⟩

/-- Source lines 140-150, `AsInExpression for BoxedSelectStatement`: wrap
the query unchanged in a `Subselect`. -/
def BoxedSelectStatement.as_in_expression {π ε : Type}
    (s : BoxedSelectStatement π ε) : Subselect (BoxedSelectStatement π ε) :=
  Subselect.new s

/-- The text contributed by all members after the first: each preceded by
`", "`. -/
def joinRest : List String → String
  | [] => ""
  | t :: ts => ", " ++ t ++ joinRest ts

/-- Members joined by `", "`, matching the first-flag loop of
`Many::walk_ast`. -/
def joinComma : List String → String
  | [] => ""
  | t :: ts => t ++ joinRest ts

/-- A fragment is append-only when, on every input state, it succeeds and
contributes fixed SQL text `t`, fixed bound parameters `bs`, and a fixed
cacheability contribution `c` (false exactly when it marks the statement
unsafe to cache).  Diesel fragments only ever write through `AstPass`, so
the fragments this subsystem composes are of this shape. -/
def FragAppends {π ε : Type} (f : Frag π ε) (t : String) (bs : List π)
    (c : Bool) : Prop :=
  ∀ out, f out = Except.ok { sql := out.sql ++ t, binds := out.binds ++ bs,
                             safeToCache := out.safeToCache && c }

lemma walkValues_bound_rest {π ε : Type} (vs : List (Bound π))
    (out : AstPass π) :
    Many.walkValues (π := π) (ε := ε) vs false out =
      Except.ok { sql := out.sql ++ joinRest (vs.map Bound.sqlText),
                  binds := out.binds ++ vs.map Bound.value,
                  safeToCache := out.safeToCache } := by
  induction vs generalizing out with
  | nil => simp [Many.walkValues, joinRest]
  | cons v vs ih =>
    simp only [Many.walkValues, Bool.false_eq_true, if_false,
      QueryFragment.walk_ast, Bound.walk_ast, AstPass.push_sql, ih,
      joinRest, List.map_cons]
    simp [String.append_assoc, List.append_assoc]

lemma walkValues_bound {π ε : Type} (vs : List (Bound π)) (out : AstPass π) :
    Many.walkValues (π := π) (ε := ε) vs true out =
      Except.ok { sql := out.sql ++ joinComma (vs.map Bound.sqlText),
                  binds := out.binds ++ vs.map Bound.value,
                  safeToCache := out.safeToCache } := by
  cases vs with
  | nil => simp [Many.walkValues, joinComma]
  | cons v vs =>
    simp only [Many.walkValues, if_pos rfl, QueryFragment.walk_ast,
      Bound.walk_ast, walkValues_bound_rest, joinComma, List.map_cons]
    simp [String.append_assoc, List.append_assoc]

lemma many_bound_walk {π ε : Type} (vs : List (Bound π)) (out : AstPass π) :
    Many.walk_ast (π := π) (ε := ε) { vals := vs } out =
      Except.ok { sql := out.sql ++ joinComma (vs.map Bound.sqlText),
                  binds := out.binds ++ vs.map Bound.value,
                  safeToCache := false } := by
  simp [Many.walk_ast, walkValues_bound, AstPass.mark_uncacheable]

lemma many_bound_appends {π ε : Type} (vs : List (Bound π)) :
    FragAppends (π := π) (ε := ε) (Many.walk_ast { vals := vs })
      (joinComma (vs.map Bound.sqlText)) (vs.map Bound.value) false := by
  intro out
  simp [many_bound_walk]

lemma walk_ast_frag {π ε : Type} (f : Frag π ε) :
    QueryFragment.walk_ast (π := π) (ε := ε) f = f :=
  rfl

lemma walk_ast_many {π ε τ : Type} [QueryFragment π ε τ] (m : Many τ) :
    QueryFragment.walk_ast (π := π) (ε := ε) m = Many.walk_ast m :=
  rfl

lemma textFrag_appends {π ε : Type} (t : String) :
    FragAppends (QueryFragment.walk_ast (π := π) (ε := ε)
      (textFrag t : Frag π ε)) t [] true := by
  rw [walk_ast_frag]
  intro out
  simp [textFrag, AstPass.push_sql]

lemma in_walk_nonempty {π ε τ υ : Type} [QueryFragment π ε τ]
    [QueryFragment π ε υ] [MaybeEmpty υ] (l : τ) (v : υ)
    (tL tV : String) (bL bV : List π) (cL cV : Bool)
    (hL : FragAppends (QueryFragment.walk_ast (π := π) (ε := ε) l) tL bL cL)
    (hV : FragAppends (QueryFragment.walk_ast (π := π) (ε := ε) v) tV bV cV)
    (hne : MaybeEmpty.is_empty v = false) (out : AstPass π) :
    In.walk_ast (π := π) (ε := ε) (In.new l v) out =
      Except.ok { sql := out.sql ++ (tL ++ " IN (" ++ tV ++ ")"),
                  binds := out.binds ++ (bL ++ bV),
                  safeToCache := out.safeToCache && (cL && cV) } := by
  simp only [FragAppends] at hL hV
  simp only [In.walk_ast, In.new, hne, Bool.false_eq_true, if_false,
    AstPass.push_sql, hL, hV]
  simp [String.append_assoc, List.append_assoc, Bool.and_assoc]

lemma notIn_walk_nonempty {π ε τ υ : Type} [QueryFragment π ε τ]
    [QueryFragment π ε υ] [MaybeEmpty υ] (l : τ) (v : υ)
    (tL tV : String) (bL bV : List π) (cL cV : Bool)
    (hL : FragAppends (QueryFragment.walk_ast (π := π) (ε := ε) l) tL bL cL)
    (hV : FragAppends (QueryFragment.walk_ast (π := π) (ε := ε) v) tV bV cV)
    (hne : MaybeEmpty.is_empty v = false) (out : AstPass π) :
    NotIn.walk_ast (π := π) (ε := ε) (NotIn.new l v) out =
      Except.ok { sql := out.sql ++ (tL ++ " NOT IN (" ++ tV ++ ")"),
                  binds := out.binds ++ (bL ++ bV),
                  safeToCache := out.safeToCache && (cL && cV) } := by
  simp only [FragAppends] at hL hV
  simp only [NotIn.walk_ast, NotIn.new, hne, Bool.false_eq_true, if_false,
    AstPass.push_sql, hL, hV]
  simp [String.append_assoc, List.append_assoc, Bool.and_assoc]

lemma in_walk_empty {π ε τ υ : Type} [QueryFragment π ε τ]
    [QueryFragment π ε υ] [MaybeEmpty υ] (l : τ) (v : υ)
    (he : MaybeEmpty.is_empty v = true) (out : AstPass π) :
    In.walk_ast (π := π) (ε := ε) (In.new l v) out =
      Except.ok (out.push_sql "1=0") := by
  simp [In.walk_ast, In.new, he]

lemma notIn_walk_empty {π ε τ υ : Type} [QueryFragment π ε τ]
    [QueryFragment π ε υ] [MaybeEmpty υ] (l : τ) (v : υ)
    (he : MaybeEmpty.is_empty v = true) (out : AstPass π) :
    NotIn.walk_ast (π := π) (ε := ε) (NotIn.new l v) out =
      Except.ok (out.push_sql "1=1") := by
  simp [NotIn.walk_ast, NotIn.new, he]

lemma map_as_expression_sqlText {π : Type} (toSql : π → String)
    (vs : List π) :
    (vs.map (as_expression toSql)).map Bound.sqlText = vs.map toSql := by
  induction vs with
  | nil => rfl
  | cons v vs ih => simp [as_expression, ih]

lemma map_as_expression_value {π : Type} (toSql : π → String)
    (vs : List π) :
    (vs.map (as_expression toSql)).map Bound.value = vs := by
  induction vs with
  | nil => rfl
  | cons v vs ih => simp [as_expression, ih]

lemma many_bound_conv_appends {π ε : Type} (toSql : π → String)
    (vs : List π) :
    FragAppends (QueryFragment.walk_ast (π := π) (ε := ε)
      (as_in_expression (as_expression toSql) vs))
      (joinComma (vs.map toSql)) vs false := by
  rw [walk_ast_many]
  have h := many_bound_appends (π := π) (ε := ε)
    (vs.map (as_expression toSql))
  rw [map_as_expression_sqlText, map_as_expression_value] at h
  exact h

lemma many_conv_walk {π ε : Type} (toSql : π → String) (vs : List π)
    (out : AstPass π) :
    Many.walk_ast (π := π) (ε := ε)
        (as_in_expression (as_expression toSql) vs) out =
      Except.ok { sql := out.sql ++ joinComma (vs.map toSql),
                  binds := out.binds ++ vs, safeToCache := false } := by
  have h := many_bound_walk (π := π) (ε := ε)
    (vs.map (as_expression toSql)) out
  rw [map_as_expression_sqlText, map_as_expression_value] at h
  exact h

lemma many_conv_nonempty {α τ : Type} (conv : α → τ) (vs : List α)
    (h : vs ≠ []) :
    MaybeEmpty.is_empty (as_in_expression conv vs) = false := by
  cases vs with
  | nil => exact absurd rfl h
  | cons v vs => rfl

/-- C1: converting a nonempty list of values and rendering
`In(L, collection)` into a fresh buffer emits `<L> IN (v1, v2, ..., vN)`
(the members joined by `", "`, in input order) and records exactly the N
input values as bound parameters, in input order.  The left expression is
modelled by the SQL text it emits (`textFrag tL`). -/
theorem in_renders_nonempty_collection {π ε : Type} (toSql : π → String)
    (tL : String) (vs : List π) (h : vs ≠ []) :
    In.walk_ast (π := π) (ε := ε) (In.new (textFrag tL : Frag π ε)
        (as_in_expression (as_expression toSql) vs)) AstPass.fresh =
      Except.ok { sql := tL ++ " IN (" ++ joinComma (vs.map toSql) ++ ")",
                  binds := vs, safeToCache := false } := by
  have hres := in_walk_nonempty (textFrag tL : Frag π ε)
    (as_in_expression (as_expression toSql) vs) tL
    (joinComma (vs.map toSql)) [] vs true false
    (textFrag_appends tL) (many_bound_conv_appends toSql vs)
    (many_conv_nonempty _ vs h) AstPass.fresh
  simpa [AstPass.fresh, String.append_assoc] using hres

/-- Witness for C1 at the spec's end-to-end example: the left column `age`
and the value list `[18, 21, 65]`. -/
theorem in_renders_nonempty_collection_witness :
    ([18, 21, 65] : List Nat) ≠ [] ∧
    In.walk_ast (π := Nat) (ε := String) (In.new (textFrag "age" : Frag Nat String)
        (as_in_expression (as_expression toString) [18, 21, 65]))
        AstPass.fresh =
      Except.ok { sql := "age" ++ " IN (" ++
                    joinComma (([18, 21, 65] : List Nat).map toString) ++ ")",
                  binds := [18, 21, 65], safeToCache := false } :=
  ⟨by decide,
   in_renders_nonempty_collection toString "age" [18, 21, 65] (by decide)⟩

/-- C2: with an empty converted collection, `In` renders exactly `1=0` and
`NotIn` exactly `1=1`, each appending no bound parameters; the result is
the same for every left operand `L` — even one that would fail to render —
so the left expression is not rendered. -/
theorem in_empty_collection_sentinels {π ε α τ : Type} [QueryFragment π ε τ]
    (conv : α → τ) (L : Frag π ε) (out : AstPass π) :
    In.walk_ast (π := π) (ε := ε) (In.new L (as_in_expression conv ([] : List α))) out =
        Except.ok (out.push_sql "1=0") ∧
    NotIn.walk_ast (π := π) (ε := ε) (NotIn.new L (as_in_expression conv ([] : List α))) out =
        Except.ok (out.push_sql "1=1") ∧
    (out.push_sql "1=0").binds = out.binds ∧
    (out.push_sql "1=1").binds = out.binds :=
  ⟨in_walk_empty L _ rfl out, notIn_walk_empty L _ rfl out, rfl, rfl⟩

/-- C4 fails as stated: rendering the in-set predicate over the EMPTY
collection takes the `1=0` branch, never invokes `Many::walk_ast`, and so
never marks the fragment unsafe to cache — the flag of the fresh buffer is
still `true` afterwards. -/
theorem in_empty_collection_still_cacheable :
    In.walk_ast (π := Nat) (ε := String) (In.new (textFrag "age" : Frag Nat String)
        (as_in_expression (as_expression toString) ([] : List Nat)))
        AstPass.fresh =
      Except.ok { sql := "1=0", binds := [], safeToCache := true } :=
  rfl

/-- C4 amended: rendering the collection adapter itself always marks the
statement not safe to cache, unconditionally for every length including
zero and one; rendering a collection-backed `In`/`NotIn` predicate marks
it not safe to cache for every NONEMPTY length including one; for the
empty collection the predicate emits the sentinel without rendering the
adapter, leaving the cacheability flag untouched. -/
theorem collection_rendering_marks_uncacheable {π ε : Type}
    (toSql : π → String) (vs : List π) (tL : String) (out : AstPass π) :
    (Many.walk_ast (π := π) (ε := ε)
        (as_in_expression (as_expression toSql) vs) out =
      Except.ok { sql := out.sql ++ joinComma (vs.map toSql),
                  binds := out.binds ++ vs, safeToCache := false })
    ∧ (vs ≠ [] →
        In.walk_ast (π := π) (ε := ε) (In.new (textFrag tL : Frag π ε)
            (as_in_expression (as_expression toSql) vs)) AstPass.fresh =
          Except.ok { sql := tL ++ " IN (" ++ joinComma (vs.map toSql) ++ ")",
                      binds := vs, safeToCache := false }
        ∧ NotIn.walk_ast (π := π) (ε := ε) (NotIn.new (textFrag tL : Frag π ε)
            (as_in_expression (as_expression toSql) vs)) AstPass.fresh =
          Except.ok { sql := tL ++ " NOT IN (" ++ joinComma (vs.map toSql)
                        ++ ")",
                      binds := vs, safeToCache := false })
    ∧ (In.walk_ast (π := π) (ε := ε) (In.new (textFrag tL : Frag π ε)
          (as_in_expression (as_expression toSql) ([] : List π)))
          AstPass.fresh).map AstPass.safeToCache = Except.ok true := by
  refine ⟨many_conv_walk toSql vs out, fun h => ⟨?_, ?_⟩, ?_⟩
  · have hres := in_walk_nonempty (textFrag tL : Frag π ε)
      (as_in_expression (as_expression toSql) vs) tL
      (joinComma (vs.map toSql)) [] vs true false
      (textFrag_appends tL) (many_bound_conv_appends toSql vs)
      (many_conv_nonempty _ vs h) AstPass.fresh
    simpa [AstPass.fresh, String.append_assoc] using hres
  · have hres := notIn_walk_nonempty (textFrag tL : Frag π ε)
      (as_in_expression (as_expression toSql) vs) tL
      (joinComma (vs.map toSql)) [] vs true false
      (textFrag_appends tL) (many_bound_conv_appends toSql vs)
      (many_conv_nonempty _ vs h) AstPass.fresh
    simpa [AstPass.fresh, String.append_assoc] using hres
  · rw [in_walk_empty _ _ rfl]
    rfl

/-- Witness for the amended C4 at the single-element collection `[18]` of
the spec's end-to-end example. -/
theorem collection_rendering_marks_uncacheable_witness :
    ([18] : List Nat) ≠ [] ∧
    In.walk_ast (π := Nat) (ε := String) (In.new (textFrag "age" : Frag Nat String)
        (as_in_expression (as_expression toString) [18])) AstPass.fresh =
      Except.ok { sql := "age" ++ " IN (" ++
                    joinComma (([18] : List Nat).map toString) ++ ")",
                  binds := [18], safeToCache := false } :=
  ⟨by decide,
   ((collection_rendering_marks_uncacheable toString [18] "age"
      AstPass.fresh).2.1 (by decide)).1⟩

/-- C6: the collection adapter's emptiness capability is exactly the
length check of the stored sequence: it answers true iff the sequence has
length zero. -/
theorem many_is_empty_iff_length_zero {τ : Type} (m : Many τ) :
    Many.is_empty m = true ↔ m.vals.length = 0 := by
  cases m with
  | mk vals => cases vals <;> simp [Many.is_empty]

lemma textFrag_appends_plain {π ε : Type} (t : String) :
    FragAppends (π := π) (ε := ε) (textFrag t) t [] true := by
  intro out
  simp [textFrag, AstPass.push_sql]

lemma walk_ast_subselect_select {π ε : Type} (s : SelectStatement π ε) :
    QueryFragment.walk_ast (π := π) (ε := ε)
      (SelectStatement.as_in_expression s) = s.frag :=
  rfl

lemma walk_ast_subselect_boxed {π ε : Type} (b : BoxedSelectStatement π ε) :
    QueryFragment.walk_ast (π := π) (ε := ε)
      (BoxedSelectStatement.as_in_expression b) = b.frag :=
  rfl

/-- C3: both subquery-backed conversions produce a `Subselect` adapter
whose emptiness capability answers false unconditionally, so `In`/`NotIn`
always render the real `<left> IN (<subquery-sql>)` /
`<left> NOT IN (<subquery-sql>)` form and never the `1=0`/`1=1` sentinels,
whatever the subquery's eventual row count; the subquery's own SQL,
parameters, and cacheability contribution pass through unchanged. -/
theorem subquery_adapter_never_empty {π ε : Type} (s : SelectStatement π ε)
    (b : BoxedSelectStatement π ε) (tL tQ tB : String) (bQ bB : List π)
    (cQ cB : Bool) (hs : FragAppends s.frag tQ bQ cQ)
    (hb : FragAppends b.frag tB bB cB) :
    MaybeEmpty.is_empty (SelectStatement.as_in_expression s) = false ∧
    MaybeEmpty.is_empty (BoxedSelectStatement.as_in_expression b) = false ∧
    In.walk_ast (π := π) (ε := ε)
        (In.new (textFrag tL : Frag π ε) (SelectStatement.as_in_expression s))
        AstPass.fresh =
      Except.ok { sql := tL ++ " IN (" ++ tQ ++ ")", binds := bQ,
                  safeToCache := cQ } ∧
    NotIn.walk_ast (π := π) (ε := ε)
        (NotIn.new (textFrag tL : Frag π ε)
          (SelectStatement.as_in_expression s)) AstPass.fresh =
      Except.ok { sql := tL ++ " NOT IN (" ++ tQ ++ ")", binds := bQ,
                  safeToCache := cQ } ∧
    In.walk_ast (π := π) (ε := ε)
        (In.new (textFrag tL : Frag π ε)
          (BoxedSelectStatement.as_in_expression b)) AstPass.fresh =
      Except.ok { sql := tL ++ " IN (" ++ tB ++ ")", binds := bB,
                  safeToCache := cB } ∧
    NotIn.walk_ast (π := π) (ε := ε)
        (NotIn.new (textFrag tL : Frag π ε)
          (BoxedSelectStatement.as_in_expression b)) AstPass.fresh =
      Except.ok { sql := tL ++ " NOT IN (" ++ tB ++ ")", binds := bB,
                  safeToCache := cB } := by
  have hsWalk : FragAppends (QueryFragment.walk_ast (π := π) (ε := ε)
      (SelectStatement.as_in_expression s)) tQ bQ cQ := by
    rw [walk_ast_subselect_select]; exact hs
  have hbWalk : FragAppends (QueryFragment.walk_ast (π := π) (ε := ε)
      (BoxedSelectStatement.as_in_expression b)) tB bB cB := by
    rw [walk_ast_subselect_boxed]; exact hb
  refine ⟨rfl, rfl, ?_, ?_, ?_, ?_⟩
  · have hres := in_walk_nonempty (textFrag tL : Frag π ε)
      (SelectStatement.as_in_expression s) tL tQ [] bQ true cQ
      (textFrag_appends tL) hsWalk rfl AstPass.fresh
    simpa [AstPass.fresh, String.append_assoc] using hres
  · have hres := notIn_walk_nonempty (textFrag tL : Frag π ε)
      (SelectStatement.as_in_expression s) tL tQ [] bQ true cQ
      (textFrag_appends tL) hsWalk rfl AstPass.fresh
    simpa [AstPass.fresh, String.append_assoc] using hres
  · have hres := in_walk_nonempty (textFrag tL : Frag π ε)
      (BoxedSelectStatement.as_in_expression b) tL tB [] bB true cB
      (textFrag_appends tL) hbWalk rfl AstPass.fresh
    simpa [AstPass.fresh, String.append_assoc] using hres
  · have hres := notIn_walk_nonempty (textFrag tL : Frag π ε)
      (BoxedSelectStatement.as_in_expression b) tL tB [] bB true cB
      (textFrag_appends tL) hbWalk rfl AstPass.fresh
    simpa [AstPass.fresh, String.append_assoc] using hres

/-- Witness for C3 with a concrete subquery emitting
`SELECT id FROM users` and no parameters. -/
theorem subquery_adapter_never_empty_witness :
    MaybeEmpty.is_empty (SelectStatement.as_in_expression
      (SelectStatement.mk (textFrag "SELECT id FROM users" :
        Frag Nat String))) = false ∧
    In.walk_ast (π := Nat) (ε := String)
        (In.new (textFrag "age" : Frag Nat String)
          (SelectStatement.as_in_expression (SelectStatement.mk
            (textFrag "SELECT id FROM users" : Frag Nat String))))
        AstPass.fresh =
      Except.ok { sql := "age" ++ " IN (" ++ "SELECT id FROM users" ++ ")",
                  binds := [], safeToCache := true } :=
  ⟨(subquery_adapter_never_empty
      (SelectStatement.mk (textFrag "SELECT id FROM users"))
      (BoxedSelectStatement.mk (textFrag "SELECT id FROM users"))
      "age" "SELECT id FROM users" "SELECT id FROM users" [] [] true true
      (textFrag_appends_plain _) (textFrag_appends_plain _)).1,
   (subquery_adapter_never_empty
      (SelectStatement.mk (textFrag "SELECT id FROM users"))
      (BoxedSelectStatement.mk (textFrag "SELECT id FROM users"))
      "age" "SELECT id FROM users" "SELECT id FROM users" [] [] true true
      (textFrag_appends_plain _) (textFrag_appends_plain _)).2.2.1⟩

/-- C5: the conversion capability converts every item independently,
preserving input order and duplicates (`as_in_expression` is exactly a
map); consequently rendering the adapter built from any permutation of the
input emits exactly the identically permuted member texts and records the
identically permuted parameter list. -/
theorem as_in_expression_preserves_order {π ε α τ : Type} (conv : α → τ)
    (toSql : π → String) :
    (∀ xs : List α, (as_in_expression conv xs).vals = xs.map conv) ∧
    (∀ xs ys : List π, List.Perm xs ys →
      Many.walk_ast (π := π) (ε := ε)
          (as_in_expression (as_expression toSql) ys) AstPass.fresh =
        Except.ok { sql := joinComma (ys.map toSql), binds := ys,
                    safeToCache := false } ∧
      List.Perm
        ((as_in_expression (as_expression toSql) xs).vals.map Bound.value)
        ((as_in_expression (as_expression toSql) ys).vals.map Bound.value)) := by
  refine ⟨fun xs => rfl, fun xs ys hperm => ⟨?_, ?_⟩⟩
  · have h := many_conv_walk (π := π) (ε := ε) toSql ys AstPass.fresh
    simpa [AstPass.fresh] using h
  · simp only [as_in_expression]
    rw [map_as_expression_value, map_as_expression_value]
    exact hperm

/-- Witness for C5 at the permutation `[18, 21] ~ [21, 18]`. -/
theorem as_in_expression_preserves_order_witness :
    List.Perm ([18, 21] : List Nat) [21, 18] ∧
    Many.walk_ast (π := Nat) (ε := String)
        (as_in_expression (as_expression toString) [21, 18]) AstPass.fresh =
      Except.ok { sql := joinComma (([21, 18] : List Nat).map toString),
                  binds := [21, 18], safeToCache := false } :=
  ⟨by decide,
   ((as_in_expression_preserves_order (π := Nat) (ε := String)
      (α := Nat) (τ := Bound Nat) (as_expression toString) toString).2
      [18, 21] [21, 18] (by decide)).1⟩

/-- C7: the empty-collection branch always succeeds, and in the nonempty
case rendering `In`/`NotIn` fails exactly when rendering one of its
operands fails (the left expression, or the right-hand adapter on the
state left behind by the left expression), and the operand's error value
is returned verbatim — the predicate introduces no failure of its own. -/
theorem walk_ast_error_propagation {π ε τ υ : Type} [QueryFragment π ε τ]
    [QueryFragment π ε υ] [MaybeEmpty υ] (l : τ) (v : υ) (out : AstPass π) :
    (MaybeEmpty.is_empty v = true →
      In.walk_ast (π := π) (ε := ε) (In.new l v) out =
          Except.ok (out.push_sql "1=0") ∧
      NotIn.walk_ast (π := π) (ε := ε) (NotIn.new l v) out =
          Except.ok (out.push_sql "1=1")) ∧
    (MaybeEmpty.is_empty v = false → ∀ e : ε,
      (In.walk_ast (π := π) (ε := ε) (In.new l v) out = Except.error e ↔
        QueryFragment.walk_ast (π := π) (ε := ε) l out = Except.error e ∨
        ∃ o1, QueryFragment.walk_ast (π := π) (ε := ε) l out = Except.ok o1 ∧
          QueryFragment.walk_ast (π := π) (ε := ε) v (o1.push_sql " IN (") =
            Except.error e) ∧
      (NotIn.walk_ast (π := π) (ε := ε) (NotIn.new l v) out =
            Except.error e ↔
        QueryFragment.walk_ast (π := π) (ε := ε) l out = Except.error e ∨
        ∃ o1, QueryFragment.walk_ast (π := π) (ε := ε) l out = Except.ok o1 ∧
          QueryFragment.walk_ast (π := π) (ε := ε) v
            (o1.push_sql " NOT IN (") = Except.error e)) := by
  refine ⟨fun he => ⟨in_walk_empty l v he out, notIn_walk_empty l v he out⟩,
         fun hne e => ⟨?_, ?_⟩⟩
  · simp only [In.walk_ast, In.new, hne, Bool.false_eq_true, if_false]
    cases h1 : QueryFragment.walk_ast (π := π) (ε := ε) l out with
    | error e1 => simp [h1]
    | ok o1 =>
      cases h2 : QueryFragment.walk_ast (π := π) (ε := ε) v
          (o1.push_sql " IN (") with
      | error e2 => simp [h2]
      | ok o2 => simp [h2]
  · simp only [NotIn.walk_ast, NotIn.new, hne, Bool.false_eq_true, if_false]
    cases h1 : QueryFragment.walk_ast (π := π) (ε := ε) l out with
    | error e1 => simp [h1]
    | ok o1 =>
      cases h2 : QueryFragment.walk_ast (π := π) (ε := ε) v
          (o1.push_sql " NOT IN (") with
      | error e2 => simp [h2]
      | ok o2 => simp [h2]

/-- Witness for C7: a subquery right-hand side whose rendering fails with
the backend error "boom" makes the whole predicate fail with exactly
"boom". -/
theorem walk_ast_error_propagation_witness :
    MaybeEmpty.is_empty
        (Subselect.new (failFrag "boom" : Frag Nat String)) = false ∧
    In.walk_ast (π := Nat) (ε := String)
        (In.new (textFrag "age" : Frag Nat String)
          (Subselect.new (failFrag "boom" : Frag Nat String)))
        AstPass.fresh = Except.error "boom" := by
  refine ⟨rfl, ?_⟩
  have h := (walk_ast_error_propagation (π := Nat) (ε := String)
    (textFrag "age" : Frag Nat String)
    (Subselect.new (failFrag "boom" : Frag Nat String)) AstPass.fresh).2
    rfl "boom"
  exact h.1.mpr (Or.inr ⟨_, rfl, rfl⟩)

/-- C8: rendering is deterministic: rendering one constructed predicate
into two fresh output buffers yields identical results (same SQL text,
same ordered parameter list, same cacheability flag).  In this embedding
the rendering pass threads the output state explicitly and takes the
predicate as an immutable value, so rendering cannot mutate the
predicate. -/
theorem walk_ast_deterministic {π ε τ υ : Type} [QueryFragment π ε τ]
    [QueryFragment π ε υ] [MaybeEmpty υ] (p : In τ υ) (q : NotIn τ υ)
    (b1 b2 : AstPass π) (h1 : b1 = AstPass.fresh)
    (h2 : b2 = AstPass.fresh) :
    In.walk_ast (π := π) (ε := ε) p b1 =
        In.walk_ast (π := π) (ε := ε) p b2 ∧
    NotIn.walk_ast (π := π) (ε := ε) q b1 =
        NotIn.walk_ast (π := π) (ε := ε) q b2 := by
  subst h1
  subst h2
  exact ⟨rfl, rfl⟩

/-- Witness for C8 at the spec's end-to-end predicate (`age` against
`[18, 21, 65]`). -/
theorem walk_ast_deterministic_witness :
    In.walk_ast (π := Nat) (ε := String)
        (In.new (textFrag "age" : Frag Nat String)
          (as_in_expression (as_expression toString) [18, 21, 65]))
        AstPass.fresh =
      In.walk_ast (π := Nat) (ε := String)
        (In.new (textFrag "age" : Frag Nat String)
          (as_in_expression (as_expression toString) [18, 21, 65]))
        AstPass.fresh :=
  (walk_ast_deterministic
    (In.new (textFrag "age" : Frag Nat String)
      (as_in_expression (as_expression toString) [18, 21, 65]))
    (NotIn.new (textFrag "age" : Frag Nat String)
      (as_in_expression (as_expression toString) [18, 21, 65]))
    AstPass.fresh AstPass.fresh rfl rfl).1

/-- The structural plan-identity fingerprint: either the trivial unit
fingerprint (`type QueryId = ()`), an opaque leaf, or the composite
fingerprint of an `In`/`NotIn` node over its operands' fingerprints. -/
inductive QueryIdRepr : Type where
  | unitId : QueryIdRepr
  | atom : String → QueryIdRepr
  | inId : QueryIdRepr → QueryIdRepr → QueryIdRepr
  | notInId : QueryIdRepr → QueryIdRepr → QueryIdRepr
deriving DecidableEq

/-- Models the `QueryId` trait: the associated fingerprint type (as a
value) and the `HAS_STATIC_QUERY_ID` constant. -/
class QueryId (α : Type) where
  query_id : QueryIdRepr
  has_static_query_id : Bool

/-- Source lines 199-203: `impl<T> QueryId for Many<T>` uses the trivial
fingerprint `type QueryId = ()` and `HAS_STATIC_QUERY_ID = false`. -/
instance {τ : Type} : QueryId (Many τ) :=
  ⟨QueryIdRepr.unitId, false⟩

/-- Modelled from the spec: the `#[derive(QueryId)]` on `In` (source line
9; the derive macro's output lives outside this file) composes the
operands' fingerprints and is static only when both operands are. -/
instance {τ υ : Type} [QueryId τ] [QueryId υ] : QueryId (In τ υ) :=
  ⟨QueryIdRepr.inId (QueryId.query_id (α := τ)) (QueryId.query_id (α := υ)),
   QueryId.has_static_query_id (α := τ) &&
     QueryId.has_static_query_id (α := υ)⟩

/-- Modelled from the spec: the `#[derive(QueryId)]` on `NotIn` (source
line 15) composes the operands' fingerprints and is static only when both
operands are. -/
instance {τ υ : Type} [QueryId τ] [QueryId υ] : QueryId (NotIn τ υ) :=
  ⟨QueryIdRepr.notInId (QueryId.query_id (α := τ))
     (QueryId.query_id (α := υ)),
   QueryId.has_static_query_id (α := τ) &&
     QueryId.has_static_query_id (α := υ)⟩

/-- C9: for every element type, `Many`'s fingerprint is the trivial one
and it reports no stable static query id, while `In` and `NotIn` derive
their fingerprint and staticness compositionally from their operands. -/
theorem many_opts_out_of_plan_identity {τ υ : Type} [QueryId τ]
    [QueryId υ] :
    QueryId.query_id (α := Many τ) = QueryIdRepr.unitId ∧
    QueryId.has_static_query_id (α := Many τ) = false ∧
    QueryId.query_id (α := In τ υ) =
      QueryIdRepr.inId (QueryId.query_id (α := τ))
        (QueryId.query_id (α := υ)) ∧
    QueryId.has_static_query_id (α := In τ υ) =
      (QueryId.has_static_query_id (α := τ) &&
        QueryId.has_static_query_id (α := υ)) ∧
    QueryId.query_id (α := NotIn τ υ) =
      QueryIdRepr.notInId (QueryId.query_id (α := τ))
        (QueryId.query_id (α := υ)) ∧
    QueryId.has_static_query_id (α := NotIn τ υ) =
      (QueryId.has_static_query_id (α := τ) &&
        QueryId.has_static_query_id (α := υ)) :=
  ⟨rfl, rfl, rfl, rfl, rfl, rfl⟩

/-- C10: for append-only operands, `NotIn` yields exactly the same ordered
parameter list as `In`, and the same SQL text except `" NOT IN ("` in
place of `" IN ("` in the nonempty form and `1=1` in place of `1=0` in the
empty form. -/
theorem notIn_in_render_relation {π ε τ υ : Type} [QueryFragment π ε τ]
    [QueryFragment π ε υ] [MaybeEmpty υ] (l : τ) (v : υ) (tL tV : String)
    (bL bV : List π) (cL cV : Bool)
    (hL : FragAppends (QueryFragment.walk_ast (π := π) (ε := ε) l) tL bL cL)
    (hV : FragAppends (QueryFragment.walk_ast (π := π) (ε := ε) v) tV bV cV) :
    (MaybeEmpty.is_empty v = false →
      In.walk_ast (π := π) (ε := ε) (In.new l v) AstPass.fresh =
        Except.ok { sql := tL ++ " IN (" ++ tV ++ ")", binds := bL ++ bV,
                    safeToCache := cL && cV } ∧
      NotIn.walk_ast (π := π) (ε := ε) (NotIn.new l v) AstPass.fresh =
        Except.ok { sql := tL ++ " NOT IN (" ++ tV ++ ")",
                    binds := bL ++ bV, safeToCache := cL && cV }) ∧
    (MaybeEmpty.is_empty v = true →
      In.walk_ast (π := π) (ε := ε) (In.new l v) AstPass.fresh =
        Except.ok { sql := "1=0", binds := [], safeToCache := true } ∧
      NotIn.walk_ast (π := π) (ε := ε) (NotIn.new l v) AstPass.fresh =
        Except.ok { sql := "1=1", binds := [], safeToCache := true }) := by
  constructor
  · intro hne
    constructor
    · have hres := in_walk_nonempty l v tL tV bL bV cL cV hL hV hne
        AstPass.fresh
      simpa [AstPass.fresh, String.append_assoc] using hres
    · have hres := notIn_walk_nonempty l v tL tV bL bV cL cV hL hV hne
        AstPass.fresh
      simpa [AstPass.fresh, String.append_assoc] using hres
  · intro he
    constructor
    · rw [in_walk_empty l v he]
      rfl
    · rw [notIn_walk_empty l v he]
      rfl

/-- Witness for C10 at the single-element collection `[18]` under the
left column `age`. -/
theorem notIn_in_render_relation_witness :
    MaybeEmpty.is_empty
        (as_in_expression (as_expression (π := Nat) toString) [18]) =
      false ∧
    NotIn.walk_ast (π := Nat) (ε := String)
        (NotIn.new (textFrag "age" : Frag Nat String)
          (as_in_expression (as_expression toString) [18])) AstPass.fresh =
      Except.ok { sql := "age" ++ " NOT IN (" ++
                    joinComma (([18] : List Nat).map toString) ++ ")",
                  binds := [] ++ [18], safeToCache := true && false } :=
  ⟨rfl,
   ((notIn_in_render_relation (textFrag "age" : Frag Nat String)
      (as_in_expression (as_expression toString) [18]) "age"
      (joinComma (([18] : List Nat).map toString)) [] [18] true false
      (textFrag_appends "age") (many_bound_conv_appends toString [18])).1
      rfl).2⟩

end Diesel
